import Mathlib

/-!
Shallow embedding of the guam-adapters PostgreSQL adapter
(`src/postgresql/postgres.go` together with the helper file containing
`EscapeName`, `CreatePreparedStatementHelper` and `GetSetArgs`).

Modelling conventions:
* Go `any` argument values are modelled by `GoVal` (string or integer payloads;
  the claims never depend on any other value shape).
* A Go struct value is modelled as its declaration-ordered list of fields,
  each carrying its `db` tag (empty string for an untagged field) and value.
* Go maps (`user.Attributes`, the partial-update maps) are modelled as
  association lists in the iteration order Go happened to realise; every
  theorem below is stated for an arbitrary such order.
* The database handle is modelled as an oracle: each operation receives the
  store's response for the statement(s) it executes and returns, besides the
  Go return values, the list of statements it issued.  `scan.Select` /
  `pgxscan.Select` leave the destination slice `nil` when they fail or scan
  zero rows, so the model assigns `[]` in both cases; the Go code discards
  their error return, which the model mirrors.
* The `pgxscan.NewDBScanAPI` / `pgxscan.NewAPI` construction branches return
  their own error before any statement is executed and cannot fail in
  practice; the model treats them as always succeeding.
* The package-level variables `ESCAPED_USER_TABLE_NAME`,
  `ESCAPED_KEY_TABLE_NAME`, `ESCAPED_SESSION_TABLE_NAME` are modelled by the
  `Globals` structure; `PostgresAdapter` (re)assigns all three.
-/

namespace GuamPg

/-- A Go `any` value as it appears in a statement argument list. -/
inductive GoVal where
  | vStr : String → GoVal
  | vInt : Int → GoVal
deriving DecidableEq, Repr

/-- One struct field: its `db` tag (empty if untagged) and its value. -/
structure GoField where
  tag : String
  value : GoVal
deriving DecidableEq, Repr

/-- `const EscapeChar = "\""` from the helper file. -/
def EscapeChar : String := "\""

/-- `EscapeName` escapes a database name unless it is schema-qualified
(`strings.Contains(val, ".")` for the one-character separator is membership
of `'.'` among the name's characters). -/
def EscapeName (val : String) : String :=
  if '.' ∈ val.data then val else EscapeChar ++ val ++ EscapeChar

/-- The placeholder strategy injected by `PostgresAdapter`:
`fmt.Sprintf("$%d", index+1)`. -/
def postgresPlaceholder (index : Nat) : String := "$" ++ toString (index + 1)

/-- The loop body of `CreatePreparedStatementHelper`: walk the struct fields
with their declaration index `i`, skipping fields whose tag is `""` or `"-"`,
and collect (escaped column, placeholder at the declaration index, value). -/
def helperFrom (ph : Nat → String) :
    List GoField → Nat → List String × List String × List GoVal
  | [], _ => ([], [], [])
  | f :: rest, i =>
    let r := helperFrom ph rest (i + 1)
    if f.tag = "" ∨ f.tag = "-" then r
    else (EscapeName f.tag :: r.1, ph i :: r.2.1, f.value :: r.2.2)

/-- `CreatePreparedStatementHelper[T](placeholder)` applied to a record. -/
def CreatePreparedStatementHelper (ph : Nat → String) (values : List GoField) :
    List String × List String × List GoVal :=
  helperFrom ph values 0

/-- `GetSetArgs(fields, placeholders)`: `field = placeholder` pairs joined by
`", "`.  Go reads `placeholders[i]`; every call site passes equal-length
lists, which `zipWith` reproduces. -/
def GetSetArgs (fields placeholders : List String) : String :=
  String.intercalate ", " (List.zipWith (fun f p => f ++ " = " ++ p) fields placeholders)

/-- The `Tables` configuration struct. -/
structure Tables where
  User : String
  Session : String
  Key : String
deriving DecidableEq, Repr

/-- The three package-level escaped table-name variables. -/
structure Globals where
  escUser : String
  escKey : String
  escSession : String
deriving DecidableEq, Repr

/-- The statement-relevant effect of the `PostgresAdapter` constructor: it
overwrites all three package-level escaped names from the given `Tables`. -/
def PostgresAdapter (tables : Tables) : Globals :=
  { escUser := EscapeName tables.User
    escKey := EscapeName tables.Key
    escSession := EscapeName tables.Session }

/-- The package-level variables after a sequence of constructor calls,
starting from their zero values; each call overwrites all three. -/
def globalsAfter (constructions : List Tables) : Globals :=
  constructions.foldl (fun _ t => PostgresAdapter t) ⟨"", "", ""⟩

/-- One executed statement: SQL text plus positional arguments. -/
structure Stmt where
  query : String
  args : List GoVal
deriving DecidableEq, Repr

/-- An error surfaced by the underlying store. -/
structure PgErr where
  msg : String
deriving DecidableEq, Repr

/-- The slice that `scan.Select` leaves behind: the scanned rows on success
(`nil` iff zero rows), untouched (`nil`) on failure.  The callers in
`postgres.go` discard the error that `Select` returns. -/
def selectAssign {ρ : Type} (resp : Except PgErr (List ρ)) : List ρ :=
  match resp with
  | .ok rows => rows
  | .error _ => []

/-- `fmt.Sprintf("INSERT INTO %s ( %s ) VALUES ( %s )", ...)`. -/
def insertQuery (tableName : String) (fields placeholders : List String) : String :=
  "INSERT INTO " ++ tableName ++ " ( " ++ String.intercalate ", " fields ++
    " ) VALUES ( " ++ String.intercalate ", " placeholders ++ " )"

/-- `fmt.Sprintf("UPDATE %s SET %s WHERE id = $%d", ...)`. -/
def updateQuery (tableName setClause : String) (keyOrdinal : Nat) : String :=
  "UPDATE " ++ tableName ++ " SET " ++ setClause ++ " WHERE id = $" ++ toString keyOrdinal

/-- The merge of a typed record's helper triple with the dynamic `Attributes`
map, as performed identically by both branches of `SetUser` and by
`SetSession`: attribute `j` gets placeholder `$ (n + j + 1)` where `n` is the
number of helper-produced arguments. -/
def buildInsertFieldLists (record : List GoField) (attrs : List (String × GoVal)) :
    List String × List String × List GoVal :=
  let h := CreatePreparedStatementHelper postgresPlaceholder record
  let n := h.2.2.length
  (h.1 ++ attrs.map (fun a => EscapeName a.1),
   h.2.1 ++ (List.range attrs.length).map (fun j => "$" ++ toString (n + j + 1)),
   h.2.2 ++ attrs.map (fun a => a.2))

/-- The user-table INSERT built by `SetUser` (either branch). -/
def mkUserInsert (g : Globals) (user : List GoField) (attrs : List (String × GoVal)) : Stmt :=
  let t := buildInsertFieldLists user attrs
  ⟨insertQuery g.escUser t.1 t.2.1, t.2.2⟩

/-- The key-table INSERT built by the transactional branch of `SetUser`. -/
def mkKeyInsert (g : Globals) (key : List GoField) : Stmt :=
  let h := CreatePreparedStatementHelper postgresPlaceholder key
  ⟨insertQuery g.escKey h.1 h.2.1, h.2.2⟩

/-- `SetUser` with `key == nil`: single non-transactional INSERT; the store's
error, if any, is returned verbatim. -/
def SetUserNoKey (g : Globals) (user : List GoField) (attrs : List (String × GoVal))
    (resp : Option PgErr) : Option PgErr × List Stmt :=
  (resp, [mkUserInsert g user attrs])

/-- An event on the transaction handle opened by `SetUser`. -/
inductive TxEvent where
  | txBegin
  | txExec (s : Stmt)
  | txCommit
  | txRollback
deriving DecidableEq, Repr

/-- The store's responses to the four round trips the transactional branch of
`SetUser` can make (`none` = success). -/
structure TxResp where
  beginErr : Option PgErr
  userErr : Option PgErr
  keyErr : Option PgErr
  commitErr : Option PgErr
deriving DecidableEq, Repr

/-- `SetUser` with a non-nil `key`: begin, user INSERT, key INSERT, commit,
with `defer tx.Rollback` running on every exit path after a successful
begin (a rollback after commit is a no-op whose error Go discards). -/
def SetUserWithKey (g : Globals) (user : List GoField) (attrs : List (String × GoVal))
    (key : List GoField) (r : TxResp) : Option PgErr × List TxEvent :=
  match r.beginErr with
  | some e => (some e, [])
  | none =>
    let us := mkUserInsert g user attrs
    match r.userErr with
    | some e => (some e, [.txBegin, .txExec us, .txRollback])
    | none =>
      let ks := mkKeyInsert g key
      match r.keyErr with
      | some e => (some e, [.txBegin, .txExec us, .txExec ks, .txRollback])
      | none => (r.commitErr, [.txBegin, .txExec us, .txExec ks, .txCommit, .txRollback])

/-- Transactional semantics of an event trace over a list of committed rows:
statements executed inside the transaction are staged and only become
visible at commit; a rollback (or dropping the transaction) discards the
stage.  A rollback arriving after the commit finds an empty stage. -/
def runTxAux (base staged : List Stmt) : List TxEvent → List Stmt
  | [] => base
  | .txBegin :: rest => runTxAux base staged rest
  | .txExec s :: rest => runTxAux base (staged ++ [s]) rest
  | .txCommit :: rest => runTxAux (base ++ staged) [] rest
  | .txRollback :: rest => runTxAux base [] rest

/-- Run a trace against an initial committed-row list. -/
def runTx (base : List Stmt) (events : List TxEvent) : List Stmt :=
  runTxAux base [] events

/-- `GetUser`: one parameterized SELECT; `scan.Select`'s error is discarded,
the first scanned row (if any) is returned with a nil error. -/
def GetUser {ρ : Type} (g : Globals) (userId : String) (resp : Except PgErr (List ρ)) :
    (Option ρ × Option PgErr) × List Stmt :=
  let stmt : Stmt := ⟨"SELECT * FROM " ++ g.escUser ++ " WHERE id = $1", [GoVal.vStr userId]⟩
  match selectAssign resp with
  | u :: _ => ((some u, none), [stmt])
  | [] => ((none, none), [stmt])

/-- `GetSession`: guarded by `ESCAPED_SESSION_TABLE_NAME == ""`. -/
def GetSession {ρ : Type} (g : Globals) (sessionId : String)
    (resp : Except PgErr (List ρ)) : (Option ρ × Option PgErr) × List Stmt :=
  if g.escSession = "" then ((none, none), [])
  else
    let stmt : Stmt :=
      ⟨"SELECT * FROM " ++ g.escSession ++ " WHERE id = $1", [GoVal.vStr sessionId]⟩
    match selectAssign resp with
    | s :: _ => ((some s, none), [stmt])
    | [] => ((none, none), [stmt])

/-- `GetSessionsByUserId`: guarded; returns the scanned slice as-is. -/
def GetSessionsByUserId {ρ : Type} (g : Globals) (userId : String)
    (resp : Except PgErr (List ρ)) : (List ρ × Option PgErr) × List Stmt :=
  if g.escSession = "" then (([], none), [])
  else
    let stmt : Stmt :=
      ⟨"SELECT * FROM " ++ g.escSession ++ " WHERE user_id = $1", [GoVal.vStr userId]⟩
    ((selectAssign resp, none), [stmt])

/-- `GetKey`: like `GetUser` against the key table; `pgxscan.Select`'s error
is discarded. -/
def GetKey {ρ : Type} (g : Globals) (keyId : String) (resp : Except PgErr (List ρ)) :
    (Option ρ × Option PgErr) × List Stmt :=
  let stmt : Stmt := ⟨"SELECT * FROM " ++ g.escKey ++ " WHERE id = $1", [GoVal.vStr keyId]⟩
  match selectAssign resp with
  | k :: _ => ((some k, none), [stmt])
  | [] => ((none, none), [stmt])

/-- `GetKeysByUserId`: returns the scanned slice and a nil error. -/
def GetKeysByUserId {ρ : Type} (g : Globals) (userId : String)
    (resp : Except PgErr (List ρ)) : (List ρ × Option PgErr) × List Stmt :=
  let stmt : Stmt :=
    ⟨"SELECT * FROM " ++ g.escKey ++ " WHERE user_id = $1", [GoVal.vStr userId]⟩
  ((selectAssign resp, none), [stmt])

/-- `SetSession`: guarded; otherwise one INSERT merging the typed schema with
the dynamic attributes, store error returned verbatim. -/
def SetSession (g : Globals) (session : List GoField) (attrs : List (String × GoVal))
    (resp : Option PgErr) : Option PgErr × List Stmt :=
  if g.escSession = "" then (none, [])
  else
    let t := buildInsertFieldLists session attrs
    (resp, [⟨insertQuery g.escSession t.1 t.2.1, t.2.2⟩])

/-- `DeleteSession`: guarded; otherwise one DELETE by id. -/
def DeleteSession (g : Globals) (sessionId : String) (resp : Option PgErr) :
    Option PgErr × List Stmt :=
  if g.escSession = "" then (none, [])
  else (resp, [⟨"DELETE FROM " ++ g.escSession ++ " WHERE id = $1", [GoVal.vStr sessionId]⟩])

/-- `DeleteSessionsByUserId`: guarded; otherwise one DELETE by user_id. -/
def DeleteSessionsByUserId (g : Globals) (userId : String) (resp : Option PgErr) :
    Option PgErr × List Stmt :=
  if g.escSession = "" then (none, [])
  else (resp, [⟨"DELETE FROM " ++ g.escSession ++ " WHERE user_id = $1", [GoVal.vStr userId]⟩])

/-- The SET-clause triple built by `UpdateUser` / `UpdateSession`: the loop
escapes each key and increments `i`, so entry `j` gets placeholder `$ (j+1)`. -/
def buildUpdatePairs : List (String × GoVal) → Nat → List String × List String × List GoVal
  | [], _ => ([], [], [])
  | (k, v) :: rest, i =>
    let r := buildUpdatePairs rest (i + 1)
    (EscapeName k :: r.1, ("$" ++ toString (i + 1)) :: r.2.1, v :: r.2.2)

/-- `UpdateUser`: no emptiness guard; builds and executes the UPDATE with the
final placeholder `$ (len(args)+1)` bound to the id. -/
def UpdateUser (g : Globals) (userId : String) (pu : List (String × GoVal))
    (resp : Option PgErr) : Option PgErr × List Stmt :=
  let t := buildUpdatePairs pu 0
  (resp, [⟨updateQuery g.escUser (GetSetArgs t.1 t.2.1) (t.2.2.length + 1),
          t.2.2 ++ [GoVal.vStr userId]⟩])

/-- `UpdateSession`: session-table guard, then exactly like `UpdateUser`. -/
def UpdateSession (g : Globals) (sessionId : String) (ps : List (String × GoVal))
    (resp : Option PgErr) : Option PgErr × List Stmt :=
  if g.escSession = "" then (none, [])
  else
    let t := buildUpdatePairs ps 0
    (resp, [⟨updateQuery g.escSession (GetSetArgs t.1 t.2.1) (t.2.2.length + 1),
            t.2.2 ++ [GoVal.vStr sessionId]⟩])

/-- The SET-clause triple built by `UpdateKey`: the loop neither escapes the
key nor increments `i`, so every entry gets placeholder `$1`. -/
def buildUpdateKeyPairs : List (String × GoVal) → Nat → List String × List String × List GoVal
  | [], _ => ([], [], [])
  | (k, v) :: rest, i =>
    let r := buildUpdateKeyPairs rest i
    (k :: r.1, ("$" ++ toString (i + 1)) :: r.2.1, v :: r.2.2)

/-- `UpdateKey`: no emptiness guard; the WHERE placeholder ordinal is
`len(keyFields)+1`. -/
def UpdateKey (g : Globals) (keyId : String) (pk : List (String × GoVal))
    (resp : Option PgErr) : Option PgErr × List Stmt :=
  let t := buildUpdateKeyPairs pk 0
  (resp, [⟨updateQuery g.escKey (GetSetArgs t.1 t.2.1) (t.1.length + 1),
          t.2.2 ++ [GoVal.vStr keyId]⟩])

/-- The fields of a struct that carry a persistence tag (tag neither `""`
nor `"-"`), in declaration order. -/
def keptFields : List GoField → List GoField
  | [] => []
  | f :: rest =>
    if f.tag = "" ∨ f.tag = "-" then keptFields rest else f :: keptFields rest

/-- The declaration indices of the kept fields, counting from `i`. -/
def keptIndicesFrom : List GoField → Nat → List Nat
  | [], _ => []
  | f :: rest, i =>
    if f.tag = "" ∨ f.tag = "-" then keptIndicesFrom rest (i + 1)
    else i :: keptIndicesFrom rest (i + 1)

/-- The declaration indices of the kept fields. -/
def keptIndices (fs : List GoField) : List Nat := keptIndicesFrom fs 0

/-- A Go call outcome that can also be a runtime panic. -/
inductive GoOutcome (α : Type) where
  | ok : α → GoOutcome α
  | panicked : GoOutcome α
deriving DecidableEq, Repr

/-- The join query text of `GetSessionAndUser`. -/
def joinQuery (g : Globals) : String :=
  "SELECT " ++ g.escUser ++ ".*, " ++ g.escSession ++ ".id AS __session_id FROM " ++
    g.escSession ++ " INNER JOIN " ++ g.escUser ++ " ON " ++ g.escUser ++ ".id = " ++
    g.escSession ++ ".user_id WHERE " ++ g.escSession ++ ".id = $1"

/-- `GetSessionAndUser`: guarded; fetches the session via `GetSession`, then
runs the join query.  `logger.Debugf("Result: %+v\n", result[0])` evaluates
`result[0]` before the nil check, so an empty join result panics. -/
def GetSessionAndUser {σ ρ : Type} (g : Globals) (sessionId : String)
    (sessionResp : Except PgErr (List σ)) (joinResp : Except PgErr (List ρ)) :
    GoOutcome (Option σ × Option ρ × Option PgErr) × List Stmt :=
  if g.escSession = "" then (.ok (none, none, none), [])
  else
    let sres := GetSession g sessionId sessionResp
    match sres.1.2 with
    | some e => (.ok (none, none, some e), sres.2)
    | none =>
      let stmt : Stmt := ⟨joinQuery g, [GoVal.vStr sessionId]⟩
      match selectAssign joinResp with
      | r :: _ => (.ok (sres.1.1, some r, none), sres.2 ++ [stmt])
      | [] => (.panicked, sres.2 ++ [stmt])

/-! ## General lemmas about the statement helper -/

theorem helperFrom_eq (ph : Nat → String) (fs : List GoField) (i : Nat) :
    helperFrom ph fs i =
      ((keptFields fs).map (fun f => EscapeName f.tag),
       (keptIndicesFrom fs i).map ph,
       (keptFields fs).map (fun f => f.value)) := by
  induction fs generalizing i with
  | nil => rfl
  | cons f rest ih =>
    by_cases h : f.tag = "" ∨ f.tag = "-" <;>
      simp [helperFrom, keptFields, keptIndicesFrom, h, ih]

theorem keptIndicesFrom_length (fs : List GoField) (i : Nat) :
    (keptIndicesFrom fs i).length = (keptFields fs).length := by
  induction fs generalizing i with
  | nil => rfl
  | cons f rest ih =>
    by_cases h : f.tag = "" ∨ f.tag = "-" <;> simp [keptFields, keptIndicesFrom, h, ih]

theorem keptFields_append (a b : List GoField) :
    keptFields (a ++ b) = keptFields a ++ keptFields b := by
  induction a with
  | nil => rfl
  | cons f rest ih =>
    by_cases h : f.tag = "" ∨ f.tag = "-" <;> simp [keptFields, h, ih]

theorem keptIndicesFrom_append (a b : List GoField) (i : Nat) :
    keptIndicesFrom (a ++ b) i = keptIndicesFrom a i ++ keptIndicesFrom b (i + a.length) := by
  induction a generalizing i with
  | nil => simp [keptIndicesFrom]
  | cons f rest ih =>
    by_cases h : f.tag = "" ∨ f.tag = "-" <;>
      simp [keptIndicesFrom, h, ih, Nat.add_assoc, Nat.add_comm 1]

theorem keptFields_of_all_kept (a : List GoField)
    (h : ∀ f ∈ a, ¬(f.tag = "" ∨ f.tag = "-")) : keptFields a = a := by
  induction a with
  | nil => rfl
  | cons f rest ih =>
    have hf := h f (List.mem_cons_self f rest)
    simp only [keptFields, if_neg hf]
    exact congrArg (f :: ·) (ih fun x hx => h x (List.mem_cons_of_mem f hx))

theorem keptIndicesFrom_of_all_kept (a : List GoField) (i : Nat)
    (h : ∀ f ∈ a, ¬(f.tag = "" ∨ f.tag = "-")) :
    keptIndicesFrom a i = List.range' i a.length := by
  induction a generalizing i with
  | nil => rfl
  | cons f rest ih =>
    have hf := h f (List.mem_cons_self f rest)
    simp only [keptIndicesFrom, if_neg hf, List.length_cons, List.range'_succ]
    exact congrArg (i :: ·) (ih (i + 1) fun x hx => h x (List.mem_cons_of_mem f hx))

theorem keptIndicesFrom_of_none_kept (a : List GoField) (i : Nat)
    (h : ∀ f ∈ a, f.tag = "" ∨ f.tag = "-") : keptIndicesFrom a i = [] := by
  induction a generalizing i with
  | nil => rfl
  | cons f rest ih =>
    have hf := h f (List.mem_cons_self f rest)
    simp only [keptIndicesFrom, if_pos hf]
    exact ih (i + 1) fun x hx => h x (List.mem_cons_of_mem f hx)

/-! ## Claim theorems -/

/-- Claim C1: the empty-session-table sentinel does not work.  The guard in
every session operation compares the package-level escaped name with `""`,
but the constructor stores `EscapeName("") = "\"\""` (two quote characters),
which is non-empty, so the adapter built with an empty session table name
still executes statements against the database handle (here `DeleteSession`
issues `DELETE FROM "" WHERE id = $1` and `GetSession` issues a SELECT). -/
theorem session_sentinel_guard_defeated :
    EscapeName "" = "\"\"" ∧
    (PostgresAdapter ⟨"auth_user", "", "user_key"⟩).escSession ≠ "" ∧
    (DeleteSession (PostgresAdapter ⟨"auth_user", "", "user_key"⟩) "s1" none).2 =
      [⟨"DELETE FROM \"\" WHERE id = $1", [GoVal.vStr "s1"]⟩] ∧
    (GetSession (ρ := GoVal) (PostgresAdapter ⟨"auth_user", "", "user_key"⟩) "s1"
        (Except.ok [])).2 ≠ [] ∧
    (SetSession (PostgresAdapter ⟨"auth_user", "", "user_key"⟩) [] [] none).2 ≠ [] ∧
    (DeleteSessionsByUserId (PostgresAdapter ⟨"auth_user", "", "user_key"⟩) "u1" none).2 ≠ [] := by
  decide

/-- Claim C2: in the transactional branch of `SetUser`, the user-table INSERT
is always attempted before the key-table INSERT, a commit happens exactly
when both inserts succeeded, the failing insert's own error is returned, and
under the staged transaction semantics the final committed rows are either
the initial ones plus both inserts or exactly the initial ones. -/
theorem setUser_transactional_atomic (g : Globals) (user : List GoField)
    (attrs : List (String × GoVal)) (key : List GoField) (r : TxResp) (init : List Stmt) :
    ((SetUserWithKey g user attrs key r).2 = [] ∨
     (SetUserWithKey g user attrs key r).2 =
       [.txBegin, .txExec (mkUserInsert g user attrs), .txRollback] ∨
     (SetUserWithKey g user attrs key r).2 =
       [.txBegin, .txExec (mkUserInsert g user attrs), .txExec (mkKeyInsert g key),
        .txRollback] ∨
     (SetUserWithKey g user attrs key r).2 =
       [.txBegin, .txExec (mkUserInsert g user attrs), .txExec (mkKeyInsert g key),
        .txCommit, .txRollback]) ∧
    (TxEvent.txCommit ∈ (SetUserWithKey g user attrs key r).2 ↔
      r.beginErr = none ∧ r.userErr = none ∧ r.keyErr = none) ∧
    (∀ e, r.beginErr = none → r.userErr = some e →
      (SetUserWithKey g user attrs key r).1 = some e) ∧
    (∀ e, r.beginErr = none → r.userErr = none → r.keyErr = some e →
      (SetUserWithKey g user attrs key r).1 = some e) ∧
    (TxEvent.txCommit ∈ (SetUserWithKey g user attrs key r).2 →
      runTx init (SetUserWithKey g user attrs key r).2 =
        init ++ [mkUserInsert g user attrs, mkKeyInsert g key]) ∧
    (TxEvent.txCommit ∉ (SetUserWithKey g user attrs key r).2 →
      runTx init (SetUserWithKey g user attrs key r).2 = init) := by
  rcases r with ⟨be, ue, ke, ce⟩
  rcases be with _ | e1 <;> rcases ue with _ | e2 <;> rcases ke with _ | e3 <;>
    simp [SetUserWithKey, runTx, runTxAux]

/-- Claim C3 (corrected): adapters do share process-wide mutable state.  A
single constructed adapter issues statements against its own tables, but
constructing a second adapter overwrites the package-level escaped names, so
the first adapter's `GetUser` statement changes to the second adapter's user
table. -/
theorem second_adapter_redirects_first :
    (GetUser (ρ := GoVal) (globalsAfter [⟨"a_user", "a_session", "a_key"⟩]) "u1"
        (Except.ok [])).2 =
      [⟨"SELECT * FROM \"a_user\" WHERE id = $1", [GoVal.vStr "u1"]⟩] ∧
    (GetUser (ρ := GoVal)
        (globalsAfter [⟨"a_user", "a_session", "a_key"⟩, ⟨"b_user", "b_session", "b_key"⟩])
        "u1" (Except.ok [])).2 =
      [⟨"SELECT * FROM \"b_user\" WHERE id = $1", [GoVal.vStr "u1"]⟩] ∧
    (GetUser (ρ := GoVal)
        (globalsAfter [⟨"a_user", "a_session", "a_key"⟩, ⟨"b_user", "b_session", "b_key"⟩])
        "u1" (Except.ok [])).2 ≠
      (GetUser (ρ := GoVal) (globalsAfter [⟨"a_user", "a_session", "a_key"⟩]) "u1"
        (Except.ok [])).2 := by
  decide

/-- Claim C3 (amended): every operation reads the process-wide escaped table
names written by the most recent constructor call; after any construction
sequence ending with `t`, `GetUser` queries `EscapeName t.User`, regardless
of which adapter value the method is invoked on. -/
theorem adapter_statements_follow_latest_construction (ts : List Tables) (t : Tables)
    (id : String) (resp : Except PgErr (List GoVal)) :
    globalsAfter (ts ++ [t]) = PostgresAdapter t ∧
    (GetUser (ρ := GoVal) (globalsAfter (ts ++ [t])) id resp).2 =
      [⟨"SELECT * FROM " ++ EscapeName t.User ++ " WHERE id = $1", [GoVal.vStr id]⟩] := by
  have hg : globalsAfter (ts ++ [t]) = PostgresAdapter t := by
    simp [globalsAfter, List.foldl_append]
  refine ⟨hg, ?_⟩
  rw [hg]
  cases h : selectAssign resp <;> simp [GetUser, PostgresAdapter, h]

/-- Claim C4: `UpdateKey`'s loop never increments its counter, so with a
two-entry partial-update map both SET placeholders are `$1` (and the WHERE
placeholder is `$3`), colliding ordinals — unlike `UpdateUser`, which
produces the distinct ordinals `$1`, `$2`. -/
theorem updateKey_repeats_first_ordinal :
    (UpdateKey (PostgresAdapter ⟨"auth_user", "user_session", "user_key"⟩) "k1"
        [("a", GoVal.vInt 1), ("b", GoVal.vInt 2)] none).2 =
      [⟨"UPDATE \"user_key\" SET a = $1, b = $1 WHERE id = $3",
        [GoVal.vInt 1, GoVal.vInt 2, GoVal.vStr "k1"]⟩] ∧
    (buildUpdateKeyPairs [("a", GoVal.vInt 1), ("b", GoVal.vInt 2)] 0).2.1 = ["$1", "$1"] ∧
    (UpdateUser (PostgresAdapter ⟨"auth_user", "user_session", "user_key"⟩) "u1"
        [("a", GoVal.vInt 1), ("b", GoVal.vInt 2)] none).2 =
      [⟨"UPDATE \"auth_user\" SET \"a\" = $1, \"b\" = $2 WHERE id = $3",
        [GoVal.vInt 1, GoVal.vInt 2, GoVal.vStr "u1"]⟩] := by
  decide

/-- Claim C5 (counterexample): `UpdateUser` called with an empty
partial-update map is not rejected; it constructs and executes the statement
`UPDATE "auth_user" SET  WHERE id = $1` (empty SET clause) with a nil
application-level error. -/
theorem updateUser_empty_map_executes :
    UpdateUser (PostgresAdapter ⟨"auth_user", "user_session", "user_key"⟩) "u1" [] none =
      (none, [⟨"UPDATE \"auth_user\" SET  WHERE id = $1", [GoVal.vStr "u1"]⟩]) := by
  decide

/-- Claim C5 (amended): no update operation guards against an empty
partial-update map; `GetSetArgs` of empty lists is the empty string, and
`UpdateUser`, `UpdateSession` (when the session binding is non-empty) and
`UpdateKey` each build and execute an UPDATE whose SET clause is empty, with
the id bound to `$1`. -/
theorem update_empty_map_unguarded (g : Globals) (id : String) (resp : Option PgErr)
    (h : g.escSession ≠ "") :
    GetSetArgs [] [] = "" ∧
    UpdateUser g id [] resp = (resp, [⟨updateQuery g.escUser "" 1, [GoVal.vStr id]⟩]) ∧
    UpdateSession g id [] resp = (resp, [⟨updateQuery g.escSession "" 1, [GoVal.vStr id]⟩]) ∧
    UpdateKey g id [] resp = (resp, [⟨updateQuery g.escKey "" 1, [GoVal.vStr id]⟩]) := by
  refine ⟨rfl, rfl, ?_, rfl⟩
  simp only [UpdateSession, if_neg h]
  rfl

/-- Witness for `update_empty_map_unguarded` at a concrete adapter. -/
theorem update_empty_map_unguarded_witness :
    (PostgresAdapter ⟨"auth_user", "user_session", "user_key"⟩).escSession ≠ "" ∧
    (GetSetArgs [] [] = "" ∧
     UpdateUser (PostgresAdapter ⟨"auth_user", "user_session", "user_key"⟩) "u1" [] none =
       (none, [⟨updateQuery (PostgresAdapter
           ⟨"auth_user", "user_session", "user_key"⟩).escUser "" 1, [GoVal.vStr "u1"]⟩]) ∧
     UpdateSession (PostgresAdapter ⟨"auth_user", "user_session", "user_key"⟩) "u1" [] none =
       (none, [⟨updateQuery (PostgresAdapter
           ⟨"auth_user", "user_session", "user_key"⟩).escSession "" 1, [GoVal.vStr "u1"]⟩]) ∧
     UpdateKey (PostgresAdapter ⟨"auth_user", "user_session", "user_key"⟩) "u1" [] none =
       (none, [⟨updateQuery (PostgresAdapter
           ⟨"auth_user", "user_session", "user_key"⟩).escKey "" 1, [GoVal.vStr "u1"]⟩])) :=
  ⟨by decide,
   update_empty_map_unguarded (PostgresAdapter ⟨"auth_user", "user_session", "user_key"⟩)
     "u1" none (by decide)⟩

/-- Claim C6: lookups swallow store errors.  When the underlying store fails
the executed SELECT, `GetUser`, `GetKey`, `GetKeysByUserId`, `GetSession`
and `GetSessionsByUserId` discard the error returned by `Select` and hand
back an empty result together with a nil error. -/
theorem lookups_swallow_store_error :
    (GetUser (ρ := GoVal) (PostgresAdapter ⟨"auth_user", "user_session", "user_key"⟩) "u1"
        (Except.error ⟨"connection refused"⟩)).1 = (none, none) ∧
    (GetKey (ρ := GoVal) (PostgresAdapter ⟨"auth_user", "user_session", "user_key"⟩) "k1"
        (Except.error ⟨"connection refused"⟩)).1 = (none, none) ∧
    (GetKeysByUserId (ρ := GoVal) (PostgresAdapter ⟨"auth_user", "user_session", "user_key"⟩)
        "u1" (Except.error ⟨"connection refused"⟩)).1 = ([], none) ∧
    (GetSession (ρ := GoVal) (PostgresAdapter ⟨"auth_user", "user_session", "user_key"⟩) "s1"
        (Except.error ⟨"connection refused"⟩)).1 = (none, none) ∧
    (GetSessionsByUserId (ρ := GoVal)
        (PostgresAdapter ⟨"auth_user", "user_session", "user_key"⟩) "u1"
        (Except.error ⟨"connection refused"⟩)).1 = ([], none) := by
  decide

/-- Claim C7 (counterexample): with an untagged field interleaved before a
tagged one, the placeholder at output index 0 is `$2` (the declaration
index), not `$1` as the claim states. -/
theorem helper_interleaved_counterexample :
    (CreatePreparedStatementHelper postgresPlaceholder
        [⟨"", GoVal.vInt 0⟩, ⟨"a", GoVal.vInt 1⟩]).2.1 = ["$2"] ∧
    (CreatePreparedStatementHelper postgresPlaceholder
        [⟨"", GoVal.vInt 0⟩, ⟨"a", GoVal.vInt 1⟩]).2.1 ≠ ["$1"] := by
  decide

/-- Claim C7 (amended): for every record the three returned lists have equal
length and index `i` of all three describes the same (kept) field; the
placeholder at output index `i` is the strategy applied to that field's
declaration index.  When no untagged or ignore-tagged field precedes a
tagged one (the record is a tagged prefix followed by an untagged suffix),
the placeholder at output index `i` is the strategy at `i` — under the
adapter's `$n` strategy, the ordinal `$ (i+1)`. -/
theorem helper_triple_aligned (ph : Nat → String) (fs fs1 fs2 : List GoField)
    (h1 : ∀ f ∈ fs1, ¬(f.tag = "" ∨ f.tag = "-"))
    (h2 : ∀ f ∈ fs2, f.tag = "" ∨ f.tag = "-") :
    ((CreatePreparedStatementHelper ph fs).1.length =
        (CreatePreparedStatementHelper ph fs).2.1.length ∧
     (CreatePreparedStatementHelper ph fs).1.length =
        (CreatePreparedStatementHelper ph fs).2.2.length ∧
     (CreatePreparedStatementHelper ph fs).1 =
        (keptFields fs).map (fun f => EscapeName f.tag) ∧
     (CreatePreparedStatementHelper ph fs).2.2 =
        (keptFields fs).map (fun f => f.value) ∧
     (CreatePreparedStatementHelper ph fs).2.1 = (keptIndices fs).map ph) ∧
    (CreatePreparedStatementHelper ph (fs1 ++ fs2)).2.1 =
      (List.range fs1.length).map ph := by
  constructor
  · rw [CreatePreparedStatementHelper, helperFrom_eq]
    refine ⟨?_, by simp, rfl, rfl, rfl⟩
    simp [keptIndices, keptIndicesFrom_length]
  · rw [CreatePreparedStatementHelper, helperFrom_eq]
    rw [keptIndicesFrom_append, keptIndicesFrom_of_all_kept fs1 0 h1,
      keptIndicesFrom_of_none_kept fs2 _ h2, List.range_eq_range']
    simp

/-- Witness for `helper_triple_aligned` at a concrete record with a tagged
prefix and an untagged suffix. -/
theorem helper_triple_aligned_witness :
    (((CreatePreparedStatementHelper postgresPlaceholder
          [⟨"-", GoVal.vInt 5⟩, ⟨"x", GoVal.vInt 6⟩]).1.length =
        (CreatePreparedStatementHelper postgresPlaceholder
          [⟨"-", GoVal.vInt 5⟩, ⟨"x", GoVal.vInt 6⟩]).2.1.length ∧
      (CreatePreparedStatementHelper postgresPlaceholder
          [⟨"-", GoVal.vInt 5⟩, ⟨"x", GoVal.vInt 6⟩]).1.length =
        (CreatePreparedStatementHelper postgresPlaceholder
          [⟨"-", GoVal.vInt 5⟩, ⟨"x", GoVal.vInt 6⟩]).2.2.length ∧
      (CreatePreparedStatementHelper postgresPlaceholder
          [⟨"-", GoVal.vInt 5⟩, ⟨"x", GoVal.vInt 6⟩]).1 =
        (keptFields [⟨"-", GoVal.vInt 5⟩, ⟨"x", GoVal.vInt 6⟩]).map
          (fun f => EscapeName f.tag) ∧
      (CreatePreparedStatementHelper postgresPlaceholder
          [⟨"-", GoVal.vInt 5⟩, ⟨"x", GoVal.vInt 6⟩]).2.2 =
        (keptFields [⟨"-", GoVal.vInt 5⟩, ⟨"x", GoVal.vInt 6⟩]).map (fun f => f.value) ∧
      (CreatePreparedStatementHelper postgresPlaceholder
          [⟨"-", GoVal.vInt 5⟩, ⟨"x", GoVal.vInt 6⟩]).2.1 =
        (keptIndices [⟨"-", GoVal.vInt 5⟩, ⟨"x", GoVal.vInt 6⟩]).map postgresPlaceholder) ∧
     (CreatePreparedStatementHelper postgresPlaceholder
         ([⟨"id", GoVal.vInt 0⟩] ++ [⟨"", GoVal.vInt 1⟩])).2.1 =
       (List.range [(⟨"id", GoVal.vInt 0⟩ : GoField)].length).map postgresPlaceholder) :=
  helper_triple_aligned postgresPlaceholder [⟨"-", GoVal.vInt 5⟩, ⟨"x", GoVal.vInt 6⟩]
    [⟨"id", GoVal.vInt 0⟩] [⟨"", GoVal.vInt 1⟩] (by decide) (by decide)

/-- Claim C8: `GetSessionAndUser` for a session id with no session row
panics instead of returning `(nil, nil, nil)`: the debug log statement
evaluates `result[0]` on the empty join result before the nil check. -/
theorem getSessionAndUser_no_session_panics :
    (GetSessionAndUser (σ := GoVal) (ρ := GoVal)
        (PostgresAdapter ⟨"auth_user", "user_session", "user_key"⟩) "s1"
        (Except.ok []) (Except.ok [])).1 = GoOutcome.panicked := by
  decide

/-- Claim C9: a lookup whose SELECT succeeds with zero rows returns an
empty/nil result and a nil error, for `GetUser`, `GetSession`, `GetKey` and
`GetSessionsByUserId`, on every adapter state. -/
theorem lookup_no_row_is_success (g : Globals) (id : String) :
    (GetUser (ρ := GoVal) g id (Except.ok [])).1 = (none, none) ∧
    (GetSession (ρ := GoVal) g id (Except.ok [])).1 = (none, none) ∧
    (GetKey (ρ := GoVal) g id (Except.ok [])).1 = (none, none) ∧
    (GetSessionsByUserId (ρ := GoVal) g id (Except.ok [])).1 = ([], none) := by
  refine ⟨rfl, ?_, rfl, ?_⟩ <;>
    by_cases h : g.escSession = "" <;>
    simp [GetSession, GetSessionsByUserId, selectAssign, h]

/-- Claim C10: when a dynamic attribute key escapes to a column name already
produced from the typed schema, `SetUser` (both branches build the same
user INSERT) keeps both: the column list contains the column at least
twice, the attribute columns and values are appended verbatim after the
schema's, and the argument list stays aligned with the column list. -/
theorem setUser_attribute_collision_duplicates (g : Globals) (user : List GoField)
    (attrs : List (String × GoVal)) (key : List GoField) (k : String) (v : GoVal)
    (hmem : (k, v) ∈ attrs)
    (hcol : EscapeName k ∈ (CreatePreparedStatementHelper postgresPlaceholder user).1) :
    2 ≤ (buildInsertFieldLists user attrs).1.count (EscapeName k) ∧
    (buildInsertFieldLists user attrs).1 =
      (CreatePreparedStatementHelper postgresPlaceholder user).1 ++
        attrs.map (fun a => EscapeName a.1) ∧
    (buildInsertFieldLists user attrs).2.2 =
      (CreatePreparedStatementHelper postgresPlaceholder user).2.2 ++
        attrs.map (fun a => a.2) ∧
    (buildInsertFieldLists user attrs).1.length =
      (buildInsertFieldLists user attrs).2.2.length ∧
    (SetUserNoKey g user attrs none).2 = [mkUserInsert g user attrs] ∧
    (mkUserInsert g user attrs).args = (buildInsertFieldLists user attrs).2.2 ∧
    TxEvent.txExec (mkUserInsert g user attrs) ∈
      (SetUserWithKey g user attrs key ⟨none, none, none, none⟩).2 := by
  have hattr : EscapeName k ∈ attrs.map (fun a => EscapeName a.1) :=
    List.mem_map.2 ⟨(k, v), hmem, rfl⟩
  have hc1 : 0 < (CreatePreparedStatementHelper postgresPlaceholder user).1.count
      (EscapeName k) := List.count_pos_iff.2 hcol
  have hc2 : 0 < (attrs.map (fun a => EscapeName a.1)).count (EscapeName k) :=
    List.count_pos_iff.2 hattr
  refine ⟨?_, rfl, rfl, ?_, rfl, rfl, ?_⟩
  · rw [buildInsertFieldLists]
    rw [List.count_append]
    omega
  · rw [buildInsertFieldLists, CreatePreparedStatementHelper, helperFrom_eq]
    simp
  · simp [SetUserWithKey]

/-- Witness for `setUser_attribute_collision_duplicates`: the attribute key
`"id"` collides with the schema column produced by the tag `"id"`. -/
theorem setUser_attribute_collision_duplicates_witness :
    2 ≤ (buildInsertFieldLists [⟨"id", GoVal.vStr "u1"⟩]
        [("id", GoVal.vStr "dup")]).1.count (EscapeName "id") ∧
    (buildInsertFieldLists [⟨"id", GoVal.vStr "u1"⟩] [("id", GoVal.vStr "dup")]).1 =
      (CreatePreparedStatementHelper postgresPlaceholder [⟨"id", GoVal.vStr "u1"⟩]).1 ++
        [("id", GoVal.vStr "dup")].map (fun a => EscapeName a.1) ∧
    (buildInsertFieldLists [⟨"id", GoVal.vStr "u1"⟩] [("id", GoVal.vStr "dup")]).2.2 =
      (CreatePreparedStatementHelper postgresPlaceholder [⟨"id", GoVal.vStr "u1"⟩]).2.2 ++
        [("id", GoVal.vStr "dup")].map (fun a => a.2) ∧
    (buildInsertFieldLists [⟨"id", GoVal.vStr "u1"⟩] [("id", GoVal.vStr "dup")]).1.length =
      (buildInsertFieldLists [⟨"id", GoVal.vStr "u1"⟩] [("id", GoVal.vStr "dup")]).2.2.length ∧
    (SetUserNoKey (PostgresAdapter ⟨"auth_user", "user_session", "user_key"⟩)
        [⟨"id", GoVal.vStr "u1"⟩] [("id", GoVal.vStr "dup")] none).2 =
      [mkUserInsert (PostgresAdapter ⟨"auth_user", "user_session", "user_key"⟩)
        [⟨"id", GoVal.vStr "u1"⟩] [("id", GoVal.vStr "dup")]] ∧
    (mkUserInsert (PostgresAdapter ⟨"auth_user", "user_session", "user_key"⟩)
        [⟨"id", GoVal.vStr "u1"⟩] [("id", GoVal.vStr "dup")]).args =
      (buildInsertFieldLists [⟨"id", GoVal.vStr "u1"⟩] [("id", GoVal.vStr "dup")]).2.2 ∧
    TxEvent.txExec (mkUserInsert (PostgresAdapter ⟨"auth_user", "user_session", "user_key"⟩)
        [⟨"id", GoVal.vStr "u1"⟩] [("id", GoVal.vStr "dup")]) ∈
      (SetUserWithKey (PostgresAdapter ⟨"auth_user", "user_session", "user_key"⟩)
        [⟨"id", GoVal.vStr "u1"⟩] [("id", GoVal.vStr "dup")]
        [⟨"id", GoVal.vStr "k1"⟩] ⟨none, none, none, none⟩).2 :=
  setUser_attribute_collision_duplicates
    (PostgresAdapter ⟨"auth_user", "user_session", "user_key"⟩)
    [⟨"id", GoVal.vStr "u1"⟩] [("id", GoVal.vStr "dup")] [⟨"id", GoVal.vStr "k1"⟩]
    "id" (GoVal.vStr "dup") (by decide) (by decide)

end GuamPg
